import Mathlib

/-!
# Verification of the NimbusX multi-model ensemble fusion engine

Shallow embedding of the ensemble coordinator (`backend/ensemble_predictor.py`),
the physics model (`backend/physics_weather_model.py`) and the multi-horizon
neural model (`backend/neural_weather_model.py`), together with theorems
settling the frozen claims about them.

Numeric values computed by the Python code with rational arithmetic are
modelled over `ℚ`; formulas involving transcendental functions (`atan`,
`sqrt`, non-integer powers, `sin`) are modelled over `ℝ`.
-/

namespace NimbusX

/-- The closed enumeration of risk categories
(`risk_types` lists in `ensemble_predictor.py`). -/
inductive RiskType
  | extreme_heat
  | extreme_cold
  | heavy_precipitation
  | strong_winds
  | heat_discomfort
deriving DecidableEq, Repr

/-- The fixed iteration order `['extreme_heat', 'extreme_cold',
'heavy_precipitation', 'strong_winds', 'heat_discomfort']`. -/
def riskTypes : List RiskType :=
  [RiskType.extreme_heat, RiskType.extreme_cold, RiskType.heavy_precipitation,
   RiskType.strong_winds, RiskType.heat_discomfort]

/-- A per-model output dictionary as stored in `model_outputs` by
`predict_ensemble_weather_risks`.  `predictions` maps a risk category to the
model's probability when present (`output['predictions'].get(risk_type, 0)`
reads it with default 0).  `innovationScore` models the optional
`'innovation_score'` key and `hasDetailed` the presence of
`'detailed_results'`; `tempConsistency` models
`detailed_results['meta_ensemble']['meta_confidence']['temporal_consistency']`
when the detailed results carry it. -/
structure ModelOutput where
  predictions : RiskType → Option ℚ
  confidence : ℚ
  innovationScore : Option ℚ
  hasDetailed : Bool
  tempConsistency : Option ℚ

/-- Base weight table set in `EnsembleWeatherPredictor.__init__` when the ML
model imported successfully: keys `'ml_model'`, `'physics_model'`,
`'statistical_model'`, `'neural_model'`. -/
def ensembleWeightsML : String → ℚ := fun n =>
  if n = "ml_model" then 0.25
  else if n = "physics_model" then 0.25
  else if n = "statistical_model" then 0.15
  else if n = "neural_model" then 0.35
  else 0

/-- Base weight table set in `EnsembleWeatherPredictor.__init__` when
`ml_weather_model is None` (weights redistributed). -/
def ensembleWeightsNoML : String → ℚ := fun n =>
  if n = "ml_model" then 0
  else if n = "physics_model" then 0.3
  else if n = "statistical_model" then 0.25
  else if n = "neural_model" then 0.45
  else 0

/-- `max(0, min(100, x))`, the clamp applied to every combined probability. -/
def clampProb (x : ℚ) : ℚ := max 0 (min 100 x)

/-- `innovation_bonus = 1.2 if model_name == 'neural' else 1.0`
(`_combine_advanced_predictions`). -/
def innovationBonus (name : String) : ℚ := if name = "neural" then 1.2 else 1

/-- `temporal_bonus = 1.1 if 'detailed_results' in output else 1.0`
(`_combine_advanced_predictions`). -/
def temporalBonus (o : ModelOutput) : ℚ := if o.hasDetailed then 1.1 else 1

/-- `adaptive_weight = self.weights.get(model_name, 0) * conf * innovation_bonus
* temporal_bonus`, where `conf = output['confidence'] / 100`
(`_combine_advanced_predictions`, with `w` the `self.weights` table). -/
def adaptiveWeight (w : String → ℚ) (name : String) (o : ModelOutput) : ℚ :=
  w name * (o.confidence / 100) * innovationBonus name * temporalBonus o

/-- The list of adaptive weights collected over `model_outputs.items()`. -/
def adaptiveWeights (w : String → ℚ) (outputs : List (String × ModelOutput)) : List ℚ :=
  outputs.map fun p => adaptiveWeight w p.1 p.2

/-- The list of per-category predictions collected over
`model_outputs.items()`: `output['predictions'].get(risk_type, 0)`. -/
def categoryPreds (outputs : List (String × ModelOutput)) (rt : RiskType) : List ℚ :=
  outputs.map fun p => (p.2.predictions rt).getD 0

/-- `sum(p * w for p, w in zip(predictions, weights))`. -/
def dotQ (ps ws : List ℚ) : ℚ := ((ps.zip ws).map fun x => x.1 * x.2).sum

/-- `np.mean` of a list of rationals (`sum / len`). -/
def meanQ (l : List ℚ) : ℚ := l.sum / l.length

/-- One category of `_combine_advanced_predictions`
(`ensemble_predictor.py` lines 416-442): collect predictions and adaptive
weights over the models, renormalize and take the weighted sum when the
weight sum is positive, otherwise fall back to `np.mean(predictions)` (or
`50` on an empty collection), and clamp to `[0, 100]`. -/
def combine_advanced_predictions (w : String → ℚ)
    (outputs : List (String × ModelOutput)) (rt : RiskType) : ℚ :=
  let preds := categoryPreds outputs rt
  let ws := adaptiveWeights w outputs
  let s := ws.sum
  let val :=
    if 0 < s then dotQ preds (ws.map fun x => x / s)
    else if preds = [] then 50 else meanQ preds
  clampProb val

theorem clampProb_nonneg (x : ℚ) : 0 ≤ clampProb x := le_max_left 0 _

theorem clampProb_le_100 (x : ℚ) : clampProb x ≤ 100 :=
  max_le (by norm_num) (min_le_left 100 x)

/-- The numeric fields read from the `nasa_data` dictionary by
`_get_fallback_prediction`; a `none` field models an absent key, read with
`nasa_data.get(key, default)`. -/
structure NasaData where
  lat : Option ℚ
  temp_max : Option ℚ
  temp_min : Option ℚ
  humidity : Option ℚ
  precipitation : Option ℚ
  wind_speed : Option ℚ

/-- `_get_fallback_prediction(confidence, nasa_data=None, target_date='07-15')`
(`ensemble_predictor.py` lines 347-407).  `month` is the integer parsed from
`target_date`.  When `nasa_data` is falsy the code reseeds Python's `random`
and draws one `random.uniform` value per category; those five draws are
modelled by the stream `rand` (their documented ranges are (15,45), (10,35),
(20,50), (15,40), (25,55)). -/
def get_fallback_prediction (confidence : ℚ) (nasa : Option NasaData)
    (month : ℕ) (rand : RiskType → ℚ) : ModelOutput :=
  match nasa with
  | some d =>
    let lat := d.lat.getD 0
    let temp_max := d.temp_max.getD 20
    let humidity := d.humidity.getD 60
    let precipitation := d.precipitation.getD 0
    let wind_speed := d.wind_speed.getD 5
    let base_heat :=
      if |lat| < 23.5 then 60 + (temp_max - 25) * 2
      else if |lat| < 50 then 40 + (temp_max - 20) * 1.5
      else max 10 (20 + (temp_max - 10) * 1.2)
    let base_cold :=
      if |lat| < 23.5 then max 5 (30 - |lat|)
      else if |lat| < 50 then 20 + (25 - temp_max) * 1.5
      else 50 + (15 - temp_max) * 2
    let base_precipitation :=
      if |lat| < 23.5 then 40 + precipitation * 10
      else if |lat| < 50 then 30 + precipitation * 8
      else 20 + precipitation * 6
    let seasonal_factor : ℚ :=
      if month ∈ [12, 1, 2] then (if 0 < lat then 1.3 else 0.7)
      else if month ∈ [6, 7, 8] then (if lat < 0 then 1.3 else 0.7)
      else 1.0
    { predictions := fun rt => some (match rt with
        | RiskType.extreme_heat => min 100 (max 0 (base_heat * (2 - seasonal_factor)))
        | RiskType.extreme_cold => min 100 (max 0 (base_cold * seasonal_factor))
        | RiskType.heavy_precipitation => min 100 (max 0 base_precipitation)
        | RiskType.strong_winds => min 100 (max 0 (20 + wind_speed * 3))
        | RiskType.heat_discomfort =>
            min 100 (max 0 (temp_max * 1.5 + humidity * 0.5 - 20)))
      confidence := confidence
      innovationScore := none
      hasDetailed := false
      tempConsistency := none }
  | none =>
    { predictions := fun rt => some (rand rt)
      confidence := confidence
      innovationScore := none
      hasDetailed := false
      tempConsistency := none }

/-- `np.var` of a list (population variance, mean of squared deviations). -/
def varQ (l : List ℚ) : ℚ := meanQ (l.map fun x => (x - meanQ l) ^ 2)

/-- The `accuracy_metrics` record returned by
`_calculate_advanced_ensemble_confidence`, together with the subset of those
fields present in the hardcoded ensemble fallback (the fallback carries no
`temporal_consistency` / `innovation_confidence` keys, hence the `Option`). -/
structure AccuracyMetrics where
  data_quality_score : ℚ
  statistical_confidence : ℚ
  model_reliability : ℚ
  temporal_consistency : Option ℚ
  innovation_confidence : Option ℚ
  overall_confidence : ℚ
  uncertainty_level : String
deriving DecidableEq

/-- `_calculate_advanced_ensemble_confidence(model_outputs)`
(`ensemble_predictor.py` lines 446-503). -/
def calculate_advanced_ensemble_confidence
    (outputs : List (String × ModelOutput)) : AccuracyMetrics :=
  let confidences := outputs.map fun p => p.2.confidence
  let data_quality_score := meanQ confidences
  let neuralEntry := outputs.lookup "neural"
  let innovation_boost : ℚ :=
    match neuralEntry with
    | some o => min 15 ((o.innovationScore.getD 0) / 10)
    | none => 0
  let temporal_consistency : ℚ :=
    match neuralEntry with
    | some o => if o.hasDetailed then o.tempConsistency.getD 85 else 85
    | none => 85
  let agreements := (riskTypes.filterMap fun rt =>
    let preds := categoryPreds outputs rt
    if 1 < preds.length then some (max 0 (100 - varQ preds)) else none)
  let statistical_confidence := if agreements = [] then 80 else meanQ agreements
  let successful := (outputs.filter fun p => 60 < p.2.confidence).length
  let model_reliability := ((successful : ℚ) / outputs.length) * 100
  let overall_confidence :=
    data_quality_score * 0.3 + statistical_confidence * 0.25 +
    model_reliability * 0.2 + temporal_consistency * 0.15 +
    innovation_boost * 0.1
  { data_quality_score := data_quality_score
    statistical_confidence := statistical_confidence
    model_reliability := model_reliability
    temporal_consistency := some temporal_consistency
    innovation_confidence := some (innovation_boost * 10)
    overall_confidence := min 100 overall_confidence
    uncertainty_level :=
      if 80 < overall_confidence then "LOW"
      else if 60 < overall_confidence then "MODERATE" else "HIGH" }

/-- The subset of the dictionary returned by
`predict_ensemble_weather_risks` / `_get_ensemble_fallback` that the claims
are about: the five probabilities, the `accuracy_metrics` record and the
`ensemble_method` tag. -/
structure EnsembleResultM where
  probabilities : RiskType → ℚ
  accuracy : AccuracyMetrics
  ensemble_method : String

/-- `_get_ensemble_fallback()` (`ensemble_predictor.py` lines 883-904): the
single hardcoded fallback returned when the coordinator body raises. -/
def get_ensemble_fallback : EnsembleResultM :=
  { probabilities := fun rt => match rt with
      | RiskType.extreme_heat => 30
      | RiskType.extreme_cold => 20
      | RiskType.heavy_precipitation => 35
      | RiskType.strong_winds => 25
      | RiskType.heat_discomfort => 40
    accuracy :=
      { data_quality_score := 60
        statistical_confidence := 50
        model_reliability := 40
        temporal_consistency := none
        innovation_confidence := none
        overall_confidence := 50
        uncertainty_level := "HIGH" }
    ensemble_method := "Fallback Mode" }

/-- One invocation of `predict_ensemble_weather_risks`, with every point at
which foreign code may raise made explicit.  `none` in an outcome field means
"this step raised an exception".  `nasaData` is the caller's `nasa_data`
argument (`none` models a falsy value), `enhancedData` the month-specific
data built in step 1, `month` the month parsed from `target_date`, and
`rand` the `random.uniform` draws of `_get_fallback_prediction`'s
data-free branch. -/
structure PredictInput where
  mlAvailable : Bool
  nasaData : Option NasaData
  enhancedData : NasaData
  month : ℕ
  rand : RiskType → ℚ
  /-- Step 1 (multi-API aggregation and date parsing): `none` = raised. -/
  prepOutcome : Option Unit
  /-- `neural_model.predict_multi_temporal` outcome: `none` = raised. -/
  neuralOutcome : Option ModelOutput
  /-- `_calculate_location_specific_statistics` outcome: `none` = raised. -/
  statOutcome : Option ModelOutput
  /-- `ml_model.predict_weather_risks` outcome (used when `mlAvailable`). -/
  mlOutcome : Option ModelOutput
  /-- `_statistical_ml_approximation` outcome (used when `¬mlAvailable`);
  this call is NOT wrapped in its own try/except. -/
  approxOutcome : Option ModelOutput
  /-- `physics_model.predict_weather_risks_physics` outcome. -/
  physicsOutcome : Option ModelOutput
  /-- Steps 6-8 (combination, confidence, analysis, summary): `none` = raised. -/
  fusionOutcome : Option Unit

/-- Step 4 of `predict_ensemble_weather_risks`: when the ML model is
available its invocation is guarded (`except` substitutes
`_get_fallback_prediction(60, enhanced_data, target_date)`); when it is
not, `_statistical_ml_approximation` is called WITHOUT a guarding
`try/except`, so its exception (`none`) propagates to the outer handler. -/
def ml_step (inp : PredictInput) : Option ModelOutput :=
  if inp.mlAvailable then
    some (inp.mlOutcome.getD
      (get_fallback_prediction 60 (some inp.enhancedData) inp.month inp.rand))
  else inp.approxOutcome

/-- The `model_outputs` dictionary as assembled by steps 2-5 of
`predict_ensemble_weather_risks` (insertion order `neural`, `statistical`,
`ml`, `physics`), with each guarded model invocation replaced by its
documented per-model fallback on failure.  The neural fallback
`_get_fallback_prediction(70)` is called without data and with the default
date `'07-15'` (month 7). -/
def ensemble_model_outputs (inp : PredictInput) (ml : ModelOutput) :
    List (String × ModelOutput) :=
  [("neural", inp.neuralOutcome.getD (get_fallback_prediction 70 none 7 inp.rand)),
   ("statistical", inp.statOutcome.getD
      (get_fallback_prediction 60 inp.nasaData inp.month inp.rand)),
   ("ml", ml),
   ("physics", inp.physicsOutcome.getD
      (get_fallback_prediction 65 (some inp.enhancedData) inp.month inp.rand))]

/-- Steps 6-8 of `predict_ensemble_weather_risks`: the normal (non-fallback)
return value built from the assembled `model_outputs`. -/
def ensemble_normal_result (inp : PredictInput) (ml : ModelOutput) : EnsembleResultM :=
  let outputs := ensemble_model_outputs inp ml
  let w := if inp.mlAvailable then ensembleWeightsML else ensembleWeightsNoML
  { probabilities := fun rt => combine_advanced_predictions w outputs rt
    accuracy := calculate_advanced_ensemble_confidence outputs
    ensemble_method :=
      "Advanced Multi-Temporal Neural + Physics + ML + Statistical" }

/-- The body of `predict_ensemble_weather_risks` WITHOUT the outermost
`try/except` (`ensemble_predictor.py` lines 70-182): each per-model
invocation is guarded by its own `try/except` substituting the documented
per-model fallback, while step 1, the unguarded
`_statistical_ml_approximation` call and the fusion steps propagate their
exceptions (modelled as `Except.error`). -/
def predict_ensemble_body (inp : PredictInput) : Except Unit EnsembleResultM :=
  match inp.prepOutcome with
  | none => Except.error ()
  | some _ =>
    match ml_step inp with
    | none => Except.error ()
    | some ml =>
      match inp.fusionOutcome with
      | none => Except.error ()
      | some _ => Except.ok (ensemble_normal_result inp ml)

/-- `predict_ensemble_weather_risks` (`ensemble_predictor.py` lines 62-186):
the body wrapped in the outermost `try/except Exception`, which replaces any
escaping error by `_get_ensemble_fallback()`. -/
def predict_ensemble_weather_risks (inp : PredictInput) : EnsembleResultM :=
  match predict_ensemble_body inp with
  | Except.ok r => r
  | Except.error _ => get_ensemble_fallback

/-! ## Statistical model (`_calculate_location_specific_statistics`) -/

/-- The constants fixed by one climate-zone band. -/
structure ZoneParams where
  climate_zone : String
  heat_baseline : ℚ
  cold_baseline : ℚ
  precip_multiplier : ℚ
deriving DecidableEq

/-- The climate-zone classification chain of
`_calculate_location_specific_statistics` (`ensemble_predictor.py`
lines 657-687). -/
def climate_zone_params (lat : ℚ) : ZoneParams :=
  if |lat| < 10 then ⟨"equatorial", 70, 5, 1.5⟩
  else if |lat| < 23.5 then ⟨"tropical", 60, 10, 1.3⟩
  else if |lat| < 35 then ⟨"subtropical", 50, 20, 1.0⟩
  else if |lat| < 50 then ⟨"temperate", 35, 30, 0.8⟩
  else if |lat| < 66.5 then ⟨"subpolar", 20, 50, 0.6⟩
  else ⟨"polar", 10, 70, 0.4⟩

/-- The hemisphere-specific seasonal adjustment of
`_calculate_location_specific_statistics` (`ensemble_predictor.py`
lines 689-712): returns `(seasonal_heat_factor, seasonal_cold_factor)`.
`hemisphere = 'north' if lat >= 0 else 'south'`. -/
def seasonal_factors (lat : ℚ) (month : ℕ) : ℚ × ℚ :=
  if 0 ≤ lat then
    if month ∈ [6, 7, 8] then (1.4, 0.3)
    else if month ∈ [12, 1, 2] then (0.4, 1.6)
    else (1, 1)
  else
    if month ∈ [12, 1, 2] then (1.4, 0.3)
    else if month ∈ [6, 7, 8] then (0.4, 1.6)
    else (1, 1)

/-- The output record of `_calculate_location_specific_statistics`. -/
structure StatResult where
  predictions : RiskType → ℚ
  confidence : ℚ
  climate_zone : String
  seasonal_factor : ℚ

/-- `_calculate_location_specific_statistics(nasa_data, target_date)`
(`ensemble_predictor.py` lines 641-764); `month` is
`int(target_date.split('-')[0])`. -/
def calculate_location_specific_statistics (d : NasaData) (month : ℕ) : StatResult :=
  let lat := d.lat.getD 0
  let temp_max := d.temp_max.getD 20
  let temp_min := d.temp_min.getD 15
  let humidity := d.humidity.getD 60
  let precipitation := d.precipitation.getD 0
  let wind_speed := d.wind_speed.getD 5
  let zone := climate_zone_params lat
  let sf := seasonal_factors lat month
  let heat_risk :=
    min 100 (max 0 (zone.heat_baseline * sf.1 +
      (if 25 < temp_max then (temp_max - 25) * 2 else 0) +
      (if 70 < humidity then humidity * 0.3 else 0)))
  let cold_risk :=
    min 100 (max 0 (zone.cold_baseline * sf.2 +
      (if temp_min < 15 then (15 - temp_min) * 2 else 0) +
      (if temp_min < 10 then wind_speed * 0.5 else 0)))
  let precip_risk :=
    min 100 (max 0 (precipitation * 15 * zone.precip_multiplier *
      (if month ∈ [3, 4, 5, 9, 10, 11] then 1.2 else 1)))
  let wind_risk :=
    min 100 (max 0 (wind_speed * 4 *
      (if 40 < |lat| then 1.2 else 1) *
      (if month ∈ [11, 12, 1, 2, 3] then 1.1 else 1)))
  let heat_discomfort :=
    min 100 (max 0 ((temp_max * 1.2 + humidity * 0.8 - 40) * sf.1))
  let data_completeness :=
    (((([temp_max, temp_min, humidity, precipitation, wind_speed].filter
        fun v => 0 < v).length : ℚ)) / 5)
  let zone_confidence : ℚ :=
    if zone.climate_zone = "tropical" ∨ zone.climate_zone = "temperate"
    then 0.9 else 0.8
  { predictions := fun rt => match rt with
      | RiskType.extreme_heat => heat_risk
      | RiskType.extreme_cold => cold_risk
      | RiskType.heavy_precipitation => precip_risk
      | RiskType.strong_winds => wind_risk
      | RiskType.heat_discomfort => heat_discomfort
    confidence := (data_completeness * 0.6 + zone_confidence * 0.4) * 100
    climate_zone := zone.climate_zone
    seasonal_factor := sf.1 }

/-! ## Horizon model meta-ensemble (`_meta_ensemble_prediction`) -/

/-- One horizon's entry in the `predictions` dictionary passed to
`_meta_ensemble_prediction`: the per-category predictions (a `none` models a
missing category / missing `'predictions'` key) and the
`confidence_metrics['overall_confidence']` value when present (read with
default `50`). -/
structure HorizonData where
  preds : RiskType → Option ℚ
  overallConfidence : Option ℚ

/-- The per-category collection loop of `_meta_ensemble_prediction`
(`neural_weather_model.py` lines 647-658): one pass over the horizons
appending to `category_predictions` and `category_confidences` together. -/
def collect_category (horizons : List HorizonData) (rt : RiskType) :
    List ℚ × List ℚ :=
  horizons.foldr
    (fun h acc =>
      match h.preds rt with
      | some p => (p :: acc.1, h.overallConfidence.getD 50 :: acc.2)
      | none => acc)
    ([], [])

/-- The per-category fusion of `_meta_ensemble_prediction`
(`neural_weather_model.py` lines 660-675).  The result is `none` when the
numpy weight normalization `category_confidences / np.sum(...)` divides by a
zero sum, which yields NaN/inf entries and a NaN dot product rather than a
number; otherwise it is `some` of the fused value.  The code's simple-average
branch (taken when the two collected lists have different lengths) and the
empty fallback `50` are reproduced as written. -/
def meta_ensemble_category (horizons : List HorizonData) (rt : RiskType) :
    Option ℚ :=
  let ps := (collect_category horizons rt).1
  let cs := (collect_category horizons rt).2
  if ps = [] then some 50
  else if cs.length = ps.length then
    if cs.sum = 0 then none
    else some (dotQ ps (cs.map fun c => c / cs.sum))
  else some (meanQ ps)

/-! ## Physics model (`physics_weather_model.py`)

The physics formulas use transcendental functions (`math.atan`, `math.sqrt`,
non-integer powers), so they are modelled over `ℝ`. -/

/-- The wet-bulb temperature approximation of `calculate_heat_stress_index`
(`physics_weather_model.py` lines 31-33). -/
noncomputable def wet_bulb (temp humidity : ℝ) : ℝ :=
  temp * Real.arctan (0.151977 * Real.sqrt (humidity + 8.313659)) +
    Real.arctan (temp + humidity) - Real.arctan (humidity - 1.676331) +
    0.00391838 * humidity ^ ((3 : ℝ) / 2) * Real.arctan (0.023101 * humidity) -
    4.686035

/-- The WBGT computed by `calculate_heat_stress_index`
(`physics_weather_model.py` lines 36-42): `globe_temp = temp +
(solar_radiation / 1000) * 2` at the default `solar_radiation = 800`, then
`0.7 * wet_bulb + 0.2 * globe_temp + 0.1 * temp` in calm conditions
(`wind_speed < 3`) and `0.7 * wet_bulb + 0.3 * temp` otherwise. -/
noncomputable def wbgt (temp humidity wind_speed : ℝ) : ℝ :=
  if wind_speed < 3 then
    0.7 * wet_bulb temp humidity + 0.2 * (temp + (800 / 1000) * 2) + 0.1 * temp
  else 0.7 * wet_bulb temp humidity + 0.3 * temp

/-- `calculate_heat_stress_index(temp, humidity, wind_speed, solar_radiation=800)`
(`physics_weather_model.py` lines 26-52), at the default
`solar_radiation = 800` used by `predict_weather_risks_physics`. -/
noncomputable def calculate_heat_stress_index (temp humidity wind_speed : ℝ) : ℝ :=
  min 100 (max 0
    (if wbgt temp humidity wind_speed < 27 then 0
     else if wbgt temp humidity wind_speed < 32 then
       (wbgt temp humidity wind_speed - 27) * 20
     else 100))

/-- The wind-chill formula inside `calculate_cold_risk`
(`physics_weather_model.py` lines 118-122): Environment Canada formula,
active only at `wind_speed >= 4.8`. -/
noncomputable def wind_chill (temp wind_speed : ℝ) : ℝ :=
  if wind_speed < 4.8 then temp
  else 13.12 + 0.6215 * temp - 11.37 * wind_speed ^ (0.16 : ℝ) +
    0.3965 * temp * wind_speed ^ (0.16 : ℝ)

/-- `calculate_cold_risk(temp, wind_speed, humidity)`
(`physics_weather_model.py` lines 110-136). -/
noncomputable def calculate_cold_risk (temp wind_speed humidity : ℝ) : ℝ :=
  if 10 < temp then 0
  else
    let humidity_factor := 1 + (50 - humidity) / 200
    let effective_chill := wind_chill temp wind_speed * humidity_factor
    let cold_risk :=
      if 0 < effective_chill then 0
      else if -15 < effective_chill then (0 - effective_chill) * 3.33
      else 50 + ((-15) - effective_chill) * 2
    min 100 (max 0 cold_risk)

/-! ## Neural model seasonal time series (`_create_seasonal_time_series`) -/

/-- `_create_seasonal_time_series(features)` (`neural_weather_model.py`
lines 495-515), with the process-global numpy RNG made explicit: `rng` is
the stream of `np.random.normal(0, 0.1)` draws and `pos` the stream position
on entry.  The function fills a 365-day array — day `i` consumes the draw at
position `pos + i` — and the call leaves the global stream at `pos + 365`.
`features[0]` is read unconditionally in the source (the engineered feature
vector always has at least 13 entries); it is modelled with `getD`. -/
noncomputable def create_seasonal_time_series (features : List ℝ)
    (rng : ℕ → ℝ) (pos : ℕ) : (Fin 365 → ℝ) × ℕ :=
  (fun i =>
      features.getD 0 0 * Real.sin (2 * Real.pi * (i.1 : ℝ) / 365.25) +
      (if 1 < features.length then
        features.getD 1 0 * Real.sin (4 * Real.pi * (i.1 : ℝ) / 365.25) else 0) +
      (if 2 < features.length then
        features.getD 2 0 * Real.sin (24 * Real.pi * (i.1 : ℝ) / 365.25) else 0) +
      rng (pos + i.1),
    pos + 365)

/-! ## Helper lemmas -/

/-- Every result of `predict_ensemble_weather_risks` is either the single
hardcoded ensemble fallback or a normal fusion result. -/
theorem predict_result_cases (inp : PredictInput) :
    predict_ensemble_weather_risks inp = get_ensemble_fallback ∨
      ∃ ml, predict_ensemble_weather_risks inp = ensemble_normal_result inp ml := by
  unfold predict_ensemble_weather_risks predict_ensemble_body
  cases inp.prepOutcome with
  | none => exact Or.inl rfl
  | some u =>
    cases h : ml_step inp with
    | none => exact Or.inl rfl
    | some ml =>
      cases inp.fusionOutcome with
      | none => exact Or.inl rfl
      | some v => exact Or.inr ⟨ml, rfl⟩

theorem combine_in_range (w : String → ℚ) (outputs : List (String × ModelOutput))
    (rt : RiskType) :
    0 ≤ combine_advanced_predictions w outputs rt ∧
      combine_advanced_predictions w outputs rt ≤ 100 := by
  unfold combine_advanced_predictions
  exact ⟨clampProb_nonneg _, clampProb_le_100 _⟩

theorem list_sum_map_div (l : List ℚ) (s : ℚ) :
    (l.map fun x => x / s).sum = l.sum / s := by
  induction l with
  | nil => simp
  | cons a t ih => simp [ih, add_div]

/-- When the adaptive-weight sum is positive, `_combine_advanced_predictions`
takes the renormalized weighted-sum branch. -/
theorem combine_eq_weighted (w : String → ℚ) (outputs : List (String × ModelOutput))
    (rt : RiskType) (h : 0 < (adaptiveWeights w outputs).sum) :
    combine_advanced_predictions w outputs rt =
      clampProb (dotQ (categoryPreds outputs rt)
        ((adaptiveWeights w outputs).map
          fun x => x / (adaptiveWeights w outputs).sum)) := by
  show clampProb (if 0 < (adaptiveWeights w outputs).sum then
      dotQ (categoryPreds outputs rt) ((adaptiveWeights w outputs).map
        fun x => x / (adaptiveWeights w outputs).sum)
    else if categoryPreds outputs rt = [] then 50
    else meanQ (categoryPreds outputs rt)) = _
  rw [if_pos h]

/-- When the adaptive-weight sum is not positive and at least one model
output is present, `_combine_advanced_predictions` takes the
`np.mean(predictions)` branch. -/
theorem combine_eq_mean (w : String → ℚ) (outputs : List (String × ModelOutput))
    (rt : RiskType) (h : (adaptiveWeights w outputs).sum ≤ 0)
    (hne : outputs ≠ []) :
    combine_advanced_predictions w outputs rt =
      clampProb (meanQ (categoryPreds outputs rt)) := by
  show clampProb (if 0 < (adaptiveWeights w outputs).sum then
      dotQ (categoryPreds outputs rt) ((adaptiveWeights w outputs).map
        fun x => x / (adaptiveWeights w outputs).sum)
    else if categoryPreds outputs rt = [] then 50
    else meanQ (categoryPreds outputs rt)) = _
  rw [if_neg (not_lt.mpr h), if_neg]
  simpa [categoryPreds] using hne

/-! ## Claims -/

/-- C1: for every input, every value in the predictions mapping returned by
`predict_ensemble_weather_risks` — one per risk category — lies in the
closed interval [0, 100]: both the normal fusion path (which clamps every
combined value) and the hardcoded ensemble fallback satisfy the bound. -/
theorem ensemble_probabilities_in_range (inp : PredictInput) (rt : RiskType) :
    0 ≤ (predict_ensemble_weather_risks inp).probabilities rt ∧
      (predict_ensemble_weather_risks inp).probabilities rt ≤ 100 := by
  rcases predict_result_cases inp with h | ⟨ml, h⟩
  · rw [h]; cases rt <;> norm_num [get_ensemble_fallback]
  · rw [h]
    exact combine_in_range _ _ rt

/-- C4: `predict_ensemble_weather_risks` never lets an error escape: for
every input (including every combination of raising sub-steps) the returned
value is either the value of the exception-free body or the hardcoded
ensemble fallback — the outermost `try/except` absorbs every error the body
raises. -/
theorem predict_never_raises (inp : PredictInput) :
    predict_ensemble_body inp = Except.ok (predict_ensemble_weather_risks inp) ∨
      predict_ensemble_weather_risks inp = get_ensemble_fallback := by
  unfold predict_ensemble_weather_risks
  cases predict_ensemble_body inp with
  | ok r => exact Or.inl rfl
  | error e => exact Or.inr rfl

/-- A concrete scenario-C input: every one of the four model invocations
raises, while data preparation and fusion succeed. -/
def nasaDataEx : NasaData :=
  ⟨some 25.2, some 42, some 28, some 35, some 0.1, some 8⟩

/-- All four model invocations raise; each is absorbed by its per-model
handler. -/
def allModelsFailInput : PredictInput :=
  { mlAvailable := true
    nasaData := some nasaDataEx
    enhancedData := nasaDataEx
    month := 7
    rand := fun _ => 30
    prepOutcome := some ()
    neuralOutcome := none
    statOutcome := none
    mlOutcome := none
    approxOutcome := none
    physicsOutcome := none
    fusionOutcome := some () }

/-- C5 counterexample: when all four model invocations raise, the
coordinator does NOT return the hardcoded global fallback — each failed
model is replaced by its per-model fallback output and the normal fusion
path returns (its `ensemble_method` tag differs from the fallback's
`'Fallback Mode'`), so the returned value is not the documented fixed
fallback EnsembleResult. -/
theorem all_models_fail_not_global_fallback :
    (allModelsFailInput.neuralOutcome = none ∧
     allModelsFailInput.statOutcome = none ∧
     allModelsFailInput.mlOutcome = none ∧
     allModelsFailInput.physicsOutcome = none) ∧
    (predict_ensemble_weather_risks allModelsFailInput).ensemble_method =
      "Advanced Multi-Temporal Neural + Physics + ML + Statistical" ∧
    get_ensemble_fallback.ensemble_method = "Fallback Mode" ∧
    predict_ensemble_weather_risks allModelsFailInput ≠ get_ensemble_fallback := by
  refine ⟨⟨rfl, rfl, rfl, rfl⟩, rfl, rfl, fun h => ?_⟩
  have hm := congrArg EnsembleResultM.ensemble_method h
  exact absurd hm (by decide)

/-- C5 (amended): the hardcoded global fallback — fixed probabilities
{extreme_heat 30, extreme_cold 20, heavy_precipitation 35, strong_winds 25,
heat_discomfort 40}, overall_confidence 50, uncertainty_level 'HIGH' — is
returned exactly when a step OUTSIDE the per-model handlers raises (step-1
data preparation, the unguarded `_statistical_ml_approximation` call, or the
fusion steps); failure of the model invocations alone never reaches it. -/
theorem global_fallback_on_coordinator_failure (inp : PredictInput)
    (h : inp.prepOutcome = none ∨ ml_step inp = none ∨ inp.fusionOutcome = none) :
    predict_ensemble_weather_risks inp = get_ensemble_fallback ∧
    get_ensemble_fallback.probabilities RiskType.extreme_heat = 30 ∧
    get_ensemble_fallback.probabilities RiskType.extreme_cold = 20 ∧
    get_ensemble_fallback.probabilities RiskType.heavy_precipitation = 35 ∧
    get_ensemble_fallback.probabilities RiskType.strong_winds = 25 ∧
    get_ensemble_fallback.probabilities RiskType.heat_discomfort = 40 ∧
    get_ensemble_fallback.accuracy.overall_confidence = 50 ∧
    get_ensemble_fallback.accuracy.uncertainty_level = "HIGH" := by
  refine ⟨?_, by decide, by decide, by decide, by decide, by decide, by decide, by decide⟩
  unfold predict_ensemble_weather_risks predict_ensemble_body
  cases hp : inp.prepOutcome with
  | none => rfl
  | some u =>
    cases hm : ml_step inp with
    | none => rfl
    | some ml =>
      cases hf : inp.fusionOutcome with
      | none => rfl
      | some v =>
        rcases h with h | h | h
        · rw [hp] at h; exact absurd h (by simp)
        · rw [hm] at h; exact absurd h (by simp)
        · rw [hf] at h; exact absurd h (by simp)

/-- The scenario-C input with the fusion step additionally raising. -/
def fusionFailInput : PredictInput :=
  { allModelsFailInput with fusionOutcome := none }

theorem global_fallback_on_coordinator_failure_witness :
    (fusionFailInput.fusionOutcome = none) ∧
    predict_ensemble_weather_risks fusionFailInput = get_ensemble_fallback :=
  ⟨rfl, (global_fallback_on_coordinator_failure fusionFailInput
    (Or.inr (Or.inr rfl))).1⟩

/-- A neural-model output of the shape stored by step 2 of the coordinator
(key `'neural'`, with `innovation_score` and `detailed_results`). -/
def neuralOutputEx : ModelOutput :=
  { predictions := fun _ => some 80
    confidence := 100
    innovationScore := some 85
    hasDetailed := true
    tempConsistency := some 85 }

/-- A physics-model output of the shape stored by step 5 of the coordinator
(key `'physics'`). -/
def physicsOutputEx : ModelOutput :=
  { predictions := fun _ => some 0
    confidence := 50
    innovationScore := none
    hasDetailed := false
    tempConsistency := none }

/-- A `model_outputs` mapping with the coordinator's own keys. -/
def modelOutputsEx : List (String × ModelOutput) :=
  [("neural", neuralOutputEx), ("physics", physicsOutputEx)]

/-- C2 counterexample: at this concrete `model_outputs` mapping — keyed as
the coordinator keys it — both models produced a usable value for
`extreme_heat` with very different confidences (100 vs 50), yet every
adaptive weight is 0 (the keys miss the base-weight table), so no
renormalization to sum 1 (±ε) happens (the renormalized weights sum to 0)
and the blended value is the unweighted mean 40 rather than a weighted sum
honouring the confidences, refuting the claim. -/
theorem combine_renormalization_cex :
    ((neuralOutputEx.predictions RiskType.extreme_heat).isSome = true ∧
     (physicsOutputEx.predictions RiskType.extreme_heat).isSome = true) ∧
    (adaptiveWeights ensembleWeightsML modelOutputsEx).sum = 0 ∧
    ((adaptiveWeights ensembleWeightsML modelOutputsEx).map
      (fun x => x / (adaptiveWeights ensembleWeightsML modelOutputsEx).sum)).sum ≠ 1 ∧
    combine_advanced_predictions ensembleWeightsML modelOutputsEx
      RiskType.extreme_heat =
      meanQ (categoryPreds modelOutputsEx RiskType.extreme_heat) ∧
    combine_advanced_predictions ensembleWeightsML modelOutputsEx
      RiskType.extreme_heat = 40 := by
  have hw : adaptiveWeights ensembleWeightsML modelOutputsEx = [0, 0] := by
    simp [adaptiveWeights, adaptiveWeight, ensembleWeightsML, modelOutputsEx,
      neuralOutputEx, physicsOutputEx]
  have hp : categoryPreds modelOutputsEx RiskType.extreme_heat = [80, 0] := by
    simp [categoryPreds, modelOutputsEx, neuralOutputEx, physicsOutputEx]
  have hc : combine_advanced_predictions ensembleWeightsML modelOutputsEx
      RiskType.extreme_heat = clampProb (meanQ [80, 0]) := by
    rw [combine_eq_mean _ _ _ (by rw [hw]; norm_num) (by simp [modelOutputsEx]), hp]
  refine ⟨⟨rfl, rfl⟩, by rw [hw]; norm_num, by rw [hw]; norm_num, ?_, ?_⟩
  · rw [hc, hp]
    have : meanQ [80, 0] = (40 : ℚ) := by norm_num [meanQ]
    rw [this]; norm_num [clampProb]
  · rw [hc]
    have : meanQ [80, 0] = (40 : ℚ) := by norm_num [meanQ]
    rw [this]; norm_num [clampProb]

/-- C2 (amended): each model's adaptive weight is
`weights.get(model_name, 0) × (confidence/100) × innovation bonus (1.2 for
key 'neural') × detail bonus (1.1 when detailed results are present)`; the
weights are renormalized to sum to 1 and the blended value is the clamped
weighted sum exactly when the adaptive-weight sum is positive; otherwise
(in particular whenever every base-weight lookup misses, as with the
coordinator's own output keys) the clamped unweighted mean is used. -/
theorem combine_adaptive_weight_characterization (w : String → ℚ)
    (outputs : List (String × ModelOutput)) (rt : RiskType) :
    (∀ p ∈ outputs, adaptiveWeight w p.1 p.2 =
        w p.1 * (p.2.confidence / 100) * (if p.1 = "neural" then 1.2 else 1) *
          (if p.2.hasDetailed then 1.1 else 1)) ∧
    (0 < (adaptiveWeights w outputs).sum →
      ((adaptiveWeights w outputs).map
          (fun x => x / (adaptiveWeights w outputs).sum)).sum = 1 ∧
      combine_advanced_predictions w outputs rt =
        clampProb (dotQ (categoryPreds outputs rt)
          ((adaptiveWeights w outputs).map
            fun x => x / (adaptiveWeights w outputs).sum))) ∧
    ((adaptiveWeights w outputs).sum ≤ 0 → outputs ≠ [] →
      combine_advanced_predictions w outputs rt =
        clampProb (meanQ (categoryPreds outputs rt))) := by
  refine ⟨fun p _ => rfl, fun h => ⟨?_, combine_eq_weighted w outputs rt h⟩,
    fun h hne => combine_eq_mean w outputs rt h hne⟩
  rw [list_sum_map_div]
  exact div_self (ne_of_gt h)

/-- An output mapping keyed `'ml_model'`, a key the base-weight table does
contain, exercising the positive-weight branch. -/
def mlKeyOutputsEx : List (String × ModelOutput) :=
  [("ml_model",
    { predictions := fun _ => some 60
      confidence := 100
      innovationScore := none
      hasDetailed := false
      tempConsistency := none })]

theorem combine_adaptive_weight_characterization_witness :
    0 < (adaptiveWeights ensembleWeightsML mlKeyOutputsEx).sum ∧
    ((adaptiveWeights ensembleWeightsML mlKeyOutputsEx).map
        (fun x => x / (adaptiveWeights ensembleWeightsML mlKeyOutputsEx).sum)).sum = 1 ∧
    combine_advanced_predictions ensembleWeightsML mlKeyOutputsEx
      RiskType.extreme_heat =
      clampProb (dotQ (categoryPreds mlKeyOutputsEx RiskType.extreme_heat)
        ((adaptiveWeights ensembleWeightsML mlKeyOutputsEx).map
          fun x => x / (adaptiveWeights ensembleWeightsML mlKeyOutputsEx).sum)) := by
  have hpos : 0 < (adaptiveWeights ensembleWeightsML mlKeyOutputsEx).sum := by
    have h1 : ensembleWeightsML "ml_model" = (0.25 : ℚ) := rfl
    have h2 : innovationBonus "ml_model" = 1 := rfl
    norm_num [adaptiveWeights, adaptiveWeight, mlKeyOutputsEx, h1, h2, temporalBonus]
  have h := combine_adaptive_weight_characterization ensembleWeightsML
    mlKeyOutputsEx RiskType.extreme_heat
  exact ⟨hpos, (h.2.1 hpos).1, (h.2.1 hpos).2⟩

/-- The four-key mapping actually assembled by the coordinator. -/
def statOutputEx : ModelOutput :=
  { predictions := fun _ => some 60
    confidence := 90
    innovationScore := none
    hasDetailed := false
    tempConsistency := none }

/-- An ML-model output of the shape stored by step 4 (key `'ml'`). -/
def mlOutputEx : ModelOutput :=
  { predictions := fun _ => some 20
    confidence := 80
    innovationScore := none
    hasDetailed := false
    tempConsistency := none }

/-- A `model_outputs` dictionary exactly as the coordinator builds it. -/
def fourOutputsEx : List (String × ModelOutput) :=
  [("neural", neuralOutputEx), ("statistical", statOutputEx),
   ("ml", mlOutputEx), ("physics", physicsOutputEx)]

/-- Every base-weight lookup at a coordinator output key misses the table
(the table is keyed `'*_model'`), for both weight configurations. -/
theorem coordinator_keys_weight_zero (n : String)
    (hn : n = "neural" ∨ n = "statistical" ∨ n = "ml" ∨ n = "physics")
    (w : String → ℚ) (hw : w = ensembleWeightsML ∨ w = ensembleWeightsNoML) :
    w n = 0 := by
  rcases hw with rfl | rfl <;> rcases hn with rfl | rfl | rfl | rfl <;> rfl

/-- C3: for every nonempty `model_outputs` mapping whose keys are the names
the coordinator uses (`'neural'`, `'statistical'`, `'ml'`, `'physics'`) and
either base-weight table, the combined value of every risk category equals
the clamp to [0, 100] of the unweighted arithmetic mean of the models'
per-category predictions: every `self.weights.get(model_name, 0)` lookup
returns 0, so every adaptive weight is 0 and the mean branch is always
taken. -/
theorem combine_equals_clamped_mean (w : String → ℚ)
    (hw : w = ensembleWeightsML ∨ w = ensembleWeightsNoML)
    (outputs : List (String × ModelOutput))
    (hkeys : ∀ p ∈ outputs,
      p.1 = "neural" ∨ p.1 = "statistical" ∨ p.1 = "ml" ∨ p.1 = "physics")
    (hne : outputs ≠ []) (rt : RiskType) :
    combine_advanced_predictions w outputs rt =
      clampProb (meanQ (categoryPreds outputs rt)) := by
  have hsum : (adaptiveWeights w outputs).sum = 0 := by
    apply List.sum_eq_zero
    intro x hx
    rcases List.mem_map.mp hx with ⟨p, hp, rfl⟩
    rw [adaptiveWeight, coordinator_keys_weight_zero p.1 (hkeys p hp) w hw,
      zero_mul, zero_mul, zero_mul]
  exact combine_eq_mean w outputs rt (le_of_eq hsum) hne

theorem combine_equals_clamped_mean_witness :
    (fourOutputsEx ≠ [] ∧ ∀ p ∈ fourOutputsEx,
      p.1 = "neural" ∨ p.1 = "statistical" ∨ p.1 = "ml" ∨ p.1 = "physics") ∧
    combine_advanced_predictions ensembleWeightsML fourOutputsEx
      RiskType.extreme_heat =
      clampProb (meanQ (categoryPreds fourOutputsEx RiskType.extreme_heat)) ∧
    combine_advanced_predictions ensembleWeightsML fourOutputsEx
      RiskType.extreme_heat = 40 := by
  have hkeys : ∀ p ∈ fourOutputsEx,
      p.1 = "neural" ∨ p.1 = "statistical" ∨ p.1 = "ml" ∨ p.1 = "physics" := by
    intro p hp
    simp only [fourOutputsEx, List.mem_cons, List.not_mem_nil, or_false] at hp
    rcases hp with rfl | rfl | rfl | rfl
    · exact Or.inl rfl
    · exact Or.inr (Or.inl rfl)
    · exact Or.inr (Or.inr (Or.inl rfl))
    · exact Or.inr (Or.inr (Or.inr rfl))
  have hne : fourOutputsEx ≠ [] := by simp [fourOutputsEx]
  have h := combine_equals_clamped_mean ensembleWeightsML (Or.inl rfl)
    fourOutputsEx hkeys hne RiskType.extreme_heat
  refine ⟨⟨hne, hkeys⟩, h, ?_⟩
  rw [h]
  have hp : categoryPreds fourOutputsEx RiskType.extreme_heat = [80, 60, 20, 0] := by
    simp [categoryPreds, fourOutputsEx, neuralOutputEx, statOutputEx,
      mlOutputEx, physicsOutputEx]
  rw [hp]
  have : meanQ [80, 60, 20, 0] = (40 : ℚ) := by norm_num [meanQ]
  rw [this]; norm_num [clampProb]

/-- The wind-chill estimate is monotone in temperature for any fixed
nonnegative wind speed. -/
theorem wind_chill_mono (w : ℝ) (hw : 0 ≤ w) {t1 t2 : ℝ} (h : t1 ≤ t2) :
    wind_chill t1 w ≤ wind_chill t2 w := by
  unfold wind_chill
  split_ifs
  · exact h
  · have hp : (0 : ℝ) ≤ w ^ (0.16 : ℝ) := Real.rpow_nonneg hw _
    nlinarith [mul_nonneg (sub_nonneg.mpr h) hp]

/-- The two-segment risk scale of `calculate_cold_risk` is antitone in the
effective wind chill. -/
theorem cold_scale_antitone {e1 e2 : ℝ} (h : e1 ≤ e2) :
    (if 0 < e2 then (0 : ℝ)
     else if -15 < e2 then (0 - e2) * 3.33 else 50 + ((-15) - e2) * 2) ≤
    (if 0 < e1 then (0 : ℝ)
     else if -15 < e1 then (0 - e1) * 3.33 else 50 + ((-15) - e1) * 2) := by
  have h333 : (3.33 : ℝ) = 333 / 100 := by norm_num
  split_ifs <;> nlinarith [h]

/-- C7: for all temperatures `t1 ≤ t2 ≤ 10` (the cold-risk activation
threshold), any fixed wind speed `w ≥ 0` and any humidity in [0, 100],
`calculate_cold_risk t1 w h ≥ calculate_cold_risk t2 w h`: decreasing the
temperature below the activation threshold never decreases the cold risk. -/
theorem cold_risk_monotone (t1 t2 w h : ℝ) (h12 : t1 ≤ t2) (h2 : t2 ≤ 10)
    (hw : 0 ≤ w) (hh0 : 0 ≤ h) (hh1 : h ≤ 100) :
    calculate_cold_risk t2 w h ≤ calculate_cold_risk t1 w h := by
  unfold calculate_cold_risk
  rw [if_neg (by linarith : ¬ (10 : ℝ) < t2), if_neg (by linarith : ¬ (10 : ℝ) < t1)]
  have hf : (0 : ℝ) ≤ 1 + (50 - h) / 200 := by linarith
  have hec : wind_chill t1 w * (1 + (50 - h) / 200) ≤
      wind_chill t2 w * (1 + (50 - h) / 200) :=
    mul_le_mul_of_nonneg_right (wind_chill_mono w hw h12) hf
  exact min_le_min le_rfl (max_le_max le_rfl (cold_scale_antitone hec))

theorem cold_risk_monotone_witness :
    ((0 : ℝ) ≤ 5 ∧ (5 : ℝ) ≤ 10 ∧ (0 : ℝ) ≤ 0 ∧ (0 : ℝ) ≤ 50 ∧ (50 : ℝ) ≤ 100) ∧
    calculate_cold_risk 5 0 50 ≤ calculate_cold_risk 0 0 50 :=
  ⟨⟨by norm_num, by norm_num, le_rfl, by norm_num, by norm_num⟩,
   cold_risk_monotone 0 5 0 50 (by norm_num) (by norm_num) le_rfl
     (by norm_num) (by norm_num)⟩

/-- The WBGT blend as the spec states it: `0.7·wet_bulb + 0.2·globe_temp +
0.1·temp` below the calm-wind threshold 3 (with `globe_temp = temp + 1.6` at
the default solar radiation) and `0.7·wet_bulb + 0.3·temp` otherwise.
Written from the spec's words for the refinement comparison of C9. -/
noncomputable def wbgt_spec (temp wind_speed wb : ℝ) : ℝ :=
  if wind_speed < 3 then 0.7 * wb + 0.2 * (temp + 1.6) + 0.1 * temp
  else 0.7 * wb + 0.3 * temp

/-- The risk ramp as the spec states it: 0 below WBGT 27, 100 at or above
WBGT 32, and `20·(WBGT − 27)` in between.  Written from the spec's words for
the refinement comparison of C9. -/
noncomputable def ramp_spec (x : ℝ) : ℝ :=
  if x < 27 then 0 else if 32 ≤ x then 100 else 20 * (x - 27)

/-- C9: for every temperature, humidity ≥ 0 and wind speed,
`calculate_heat_stress_index` equals the spec-shaped linear ramp applied to
the spec-shaped WBGT blend of the wet-bulb approximation: the trailing clamp
never alters the ramp's value and the branch boundaries coincide. -/
theorem heat_stress_index_eq_ramp (temp humidity wind_speed : ℝ)
    (hh : 0 ≤ humidity) :
    calculate_heat_stress_index temp humidity wind_speed =
      ramp_spec (wbgt_spec temp wind_speed (wet_bulb temp humidity)) := by
  have hb : wbgt temp humidity wind_speed =
      wbgt_spec temp wind_speed (wet_bulb temp humidity) := by
    unfold wbgt wbgt_spec
    split_ifs <;> norm_num
  unfold calculate_heat_stress_index ramp_spec
  rw [hb]
  generalize wbgt_spec temp wind_speed (wet_bulb temp humidity) = b
  split_ifs with h1 h2 h3 h3
  · norm_num
  · linarith
  · rw [max_eq_right (by linarith), min_eq_right (by linarith)]
    ring
  · norm_num
  · linarith

theorem heat_stress_index_eq_ramp_witness :
    (0 : ℝ) ≤ 50 ∧
    calculate_heat_stress_index 30 50 0 =
      ramp_spec (wbgt_spec 30 0 (wet_bulb 30 50)) :=
  ⟨by norm_num, heat_stress_index_eq_ramp 30 50 0 (by norm_num)⟩

/-- The first three engineered features (temp, humidity, pressure) as a
concrete feature vector for the seasonal pipeline. -/
def featuresEx : List ℝ := [20, 60, 1013.25]

/-- A concrete global RNG stream. -/
def rngStream : ℕ → ℝ := fun n => (n : ℝ)

/-- C6 counterexample: the seasonal horizon consumes the process-global RNG
during inference.  One call to `_create_seasonal_time_series` advances the
stream position by 365 (a random draw occurs during inference, not only at
model initialization), and two successive invocations on the identical
feature vector read different stream segments and already differ at day 0
(where the deterministic sinusoidal part vanishes), refuting claimed
bit-identical repetition. -/
theorem seasonal_series_rng_draw_cex :
    (create_seasonal_time_series featuresEx rngStream 0).2 = 365 ∧
    (create_seasonal_time_series featuresEx rngStream 0).1 ⟨0, by norm_num⟩ ≠
      (create_seasonal_time_series featuresEx rngStream
        ((create_seasonal_time_series featuresEx rngStream 0).2)).1
        ⟨0, by norm_num⟩ := by
  constructor
  · rfl
  · show featuresEx.getD 0 0 * Real.sin (2 * Real.pi * ((0 : ℕ) : ℝ) / 365.25) +
        (if 1 < featuresEx.length then
          featuresEx.getD 1 0 * Real.sin (4 * Real.pi * ((0 : ℕ) : ℝ) / 365.25) else 0) +
        (if 2 < featuresEx.length then
          featuresEx.getD 2 0 * Real.sin (24 * Real.pi * ((0 : ℕ) : ℝ) / 365.25) else 0) +
        rngStream (0 + 0) ≠
      featuresEx.getD 0 0 * Real.sin (2 * Real.pi * ((0 : ℕ) : ℝ) / 365.25) +
        (if 1 < featuresEx.length then
          featuresEx.getD 1 0 * Real.sin (4 * Real.pi * ((0 : ℕ) : ℝ) / 365.25) else 0) +
        (if 2 < featuresEx.length then
          featuresEx.getD 2 0 * Real.sin (24 * Real.pi * ((0 : ℕ) : ℝ) / 365.25) else 0) +
        rngStream (365 + 0)
    norm_num [rngStream]

/-- C6 (amended): randomness is NOT confined to one-time initialization —
the seasonal synthetic series draws 365 `np.random.normal` samples from the
process-global stream per invocation, so repeated invocations read
successive stream segments and generally differ; the pipeline is
deterministic only as a function of the inputs AND the RNG state: two calls
whose streams agree on the consumed window `[pos, pos+365)` produce
identical series and identical final positions. -/
theorem seasonal_series_deterministic_given_rng (features : List ℝ)
    (rng rng2 : ℕ → ℝ) (pos : ℕ)
    (h : ∀ i : Fin 365, rng (pos + i.1) = rng2 (pos + i.1)) :
    create_seasonal_time_series features rng pos =
      create_seasonal_time_series features rng2 pos := by
  unfold create_seasonal_time_series
  refine Prod.ext ?_ rfl
  funext i
  dsimp only
  rw [h i]

theorem seasonal_series_deterministic_given_rng_witness :
    create_seasonal_time_series [1] (fun _ => 1) 0 =
      create_seasonal_time_series [1] (fun n => if n < 365 then 1 else 2) 0 :=
  seasonal_series_deterministic_given_rng [1] (fun _ => 1)
    (fun n => if n < 365 then 1 else 2) 0
    (fun i => by
      have hi := i.2
      have hlt : 0 + i.1 < 365 := by omega
      simp [hlt])

/-- A single-horizon input whose reported overall confidence is 0. -/
def horizonZeroConf : HorizonData := ⟨fun _ => some 40, some 0⟩

/-- C8 counterexample: with one horizon producing a prediction (40) at
confidence 0, `_meta_ensemble_prediction`'s weight normalization divides by
a zero confidence sum, so the fused value is NaN rather than an in-range
real number — and no fallback to simple averaging rescues it, refuting the
claim that the fusion is well-defined when every horizon's confidence is
zero. -/
theorem meta_ensemble_zero_confidence_nan_cex :
    (collect_category [horizonZeroConf] RiskType.extreme_heat).1 = [40] ∧
    (collect_category [horizonZeroConf] RiskType.extreme_heat).2.sum = 0 ∧
    meta_ensemble_category [horizonZeroConf] RiskType.extreme_heat = none := by
  refine ⟨?_, ?_, ?_⟩ <;>
    norm_num [meta_ensemble_category, collect_category, horizonZeroConf]

theorem list_sum_nonneg_q (l : List ℚ) (h : ∀ x ∈ l, 0 ≤ x) : 0 ≤ l.sum := by
  induction l with
  | nil => simp
  | cons a t ih =>
    simp only [List.sum_cons]
    have ha := h a (List.mem_cons_self a t)
    have ht := ih fun x hx => h x (List.mem_cons_of_mem a hx)
    linarith

theorem dotQ_nonneg : ∀ ps ws : List ℚ, (∀ p ∈ ps, 0 ≤ p) →
    (∀ x ∈ ws, 0 ≤ x) → 0 ≤ dotQ ps ws := by
  intro ps
  induction ps with
  | nil => intro ws _ _; simp [dotQ]
  | cons p t ih =>
    intro ws hp hw
    cases ws with
    | nil => simp [dotQ]
    | cons v vt =>
      simp only [dotQ, List.zip_cons_cons, List.map_cons, List.sum_cons]
      have h1 : 0 ≤ p * v :=
        mul_nonneg (hp p (List.mem_cons_self p t)) (hw v (List.mem_cons_self v vt))
      have h2 : 0 ≤ dotQ t vt :=
        ih vt (fun x hx => hp x (List.mem_cons_of_mem p hx))
          (fun x hx => hw x (List.mem_cons_of_mem v hx))
      simp only [dotQ] at h2
      linarith

theorem dotQ_le_mul_sum : ∀ ps ws : List ℚ, (∀ p ∈ ps, p ≤ 100) →
    (∀ x ∈ ws, 0 ≤ x) → dotQ ps ws ≤ 100 * ws.sum := by
  intro ps
  induction ps with
  | nil =>
    intro ws _ hw
    have := list_sum_nonneg_q ws hw
    simp only [dotQ, List.zip_nil_left, List.map_nil, List.sum_nil]
    linarith
  | cons p t ih =>
    intro ws hp hw
    cases ws with
    | nil => simp [dotQ]
    | cons v vt =>
      simp only [dotQ, List.zip_cons_cons, List.map_cons, List.sum_cons,
        List.sum_cons]
      have h1 : p * v ≤ 100 * v :=
        mul_le_mul_of_nonneg_right (hp p (List.mem_cons_self p t))
          (hw v (List.mem_cons_self v vt))
      have h2 : dotQ t vt ≤ 100 * vt.sum :=
        ih vt (fun x hx => hp x (List.mem_cons_of_mem p hx))
          (fun x hx => hw x (List.mem_cons_of_mem v hx))
      simp only [dotQ] at h2
      have h3 : (100 : ℚ) * (v + vt.sum) = 100 * v + 100 * vt.sum := by ring
      linarith

/-- The two collected lists always have the same length (each horizon either
appends to both or to neither), so the code's simple-average fallback branch
is unreachable. -/
theorem collect_category_length (horizons : List HorizonData) (rt : RiskType) :
    (collect_category horizons rt).1.length =
      (collect_category horizons rt).2.length := by
  induction horizons with
  | nil => rfl
  | cons h t ih =>
    simp only [collect_category, List.foldr_cons] at ih ⊢
    cases hp : h.preds rt
    · simpa using ih
    · simpa using ih

/-- C8 (amended): the two per-category lists always have equal length, so
the simple-average fallback is dead code and the fused value is always the
confidence-weighted average — well-defined (and in [0, 100] for in-range
predictions and nonnegative confidences) exactly when the confidences do
not sum to zero; a zero confidence sum yields NaN (`none`), not a number. -/
theorem meta_ensemble_weighted_average (horizons : List HorizonData)
    (rt : RiskType) :
    ((collect_category horizons rt).1.length =
      (collect_category horizons rt).2.length) ∧
    ((collect_category horizons rt).2.sum ≠ 0 →
      meta_ensemble_category horizons rt =
        some (dotQ (collect_category horizons rt).1
          ((collect_category horizons rt).2.map
            fun c => c / (collect_category horizons rt).2.sum))) ∧
    ((collect_category horizons rt).2.sum ≠ 0 →
      (∀ p ∈ (collect_category horizons rt).1, 0 ≤ p ∧ p ≤ 100) →
      (∀ c ∈ (collect_category horizons rt).2, 0 ≤ c) →
      ∃ v, meta_ensemble_category horizons rt = some v ∧ 0 ≤ v ∧ v ≤ 100) := by
  have hlen := collect_category_length horizons rt
  have heq : (collect_category horizons rt).2.sum ≠ 0 →
      meta_ensemble_category horizons rt =
        some (dotQ (collect_category horizons rt).1
          ((collect_category horizons rt).2.map
            fun c => c / (collect_category horizons rt).2.sum)) := by
    intro hs
    have hcne : (collect_category horizons rt).2 ≠ [] := by
      intro hnil
      rw [hnil] at hs
      exact hs rfl
    have hpne : (collect_category horizons rt).1 ≠ [] := by
      intro hnil
      rw [hnil] at hlen
      exact hcne (List.length_eq_zero.mp hlen.symm)
    show (if (collect_category horizons rt).1 = [] then some 50
      else if (collect_category horizons rt).2.length =
          (collect_category horizons rt).1.length then
        if (collect_category horizons rt).2.sum = 0 then none
        else some (dotQ (collect_category horizons rt).1
          ((collect_category horizons rt).2.map
            fun c => c / (collect_category horizons rt).2.sum))
      else some (meanQ (collect_category horizons rt).1)) = _
    rw [if_neg hpne, if_pos hlen.symm, if_neg hs]
  refine ⟨hlen, heq, fun hs hp hc => ?_⟩
  have hwpos : 0 < (collect_category horizons rt).2.sum :=
    lt_of_le_of_ne (list_sum_nonneg_q _ hc) (Ne.symm hs)
  refine ⟨_, heq hs, ?_, ?_⟩
  · apply dotQ_nonneg _ _ (fun p hmem => (hp p hmem).1)
    intro x hx
    rcases List.mem_map.mp hx with ⟨c, hcm, rfl⟩
    exact div_nonneg (hc c hcm) (le_of_lt hwpos)
  · have hb := dotQ_le_mul_sum (collect_category horizons rt).1
      ((collect_category horizons rt).2.map
        fun c => c / (collect_category horizons rt).2.sum)
      (fun p hmem => (hp p hmem).2)
      (fun x hx => by
        rcases List.mem_map.mp hx with ⟨c, hcm, rfl⟩
        exact div_nonneg (hc c hcm) (le_of_lt hwpos))
    rw [list_sum_map_div, div_self (ne_of_gt hwpos)] at hb
    linarith

/-- A single-horizon input with full confidence. -/
def horizonFullConf : HorizonData := ⟨fun _ => some 40, some 100⟩

theorem meta_ensemble_weighted_average_witness :
    (collect_category [horizonFullConf] RiskType.extreme_heat).2.sum ≠ 0 ∧
    meta_ensemble_category [horizonFullConf] RiskType.extreme_heat =
      some (dotQ (collect_category [horizonFullConf] RiskType.extreme_heat).1
        ((collect_category [horizonFullConf] RiskType.extreme_heat).2.map
          fun c => c /
            (collect_category [horizonFullConf] RiskType.extreme_heat).2.sum)) ∧
    meta_ensemble_category [horizonFullConf] RiskType.extreme_heat = some 40 := by
  have hs : (collect_category [horizonFullConf] RiskType.extreme_heat).2.sum ≠ 0 := by
    norm_num [collect_category, horizonFullConf]
  refine ⟨hs,
    (meta_ensemble_weighted_average [horizonFullConf] RiskType.extreme_heat).2.1 hs,
    ?_⟩
  rw [(meta_ensemble_weighted_average [horizonFullConf] RiskType.extreme_heat).2.1 hs]
  norm_num [collect_category, horizonFullConf, dotQ]

/-- The hemisphere's local summer months as the spec states them (Jun-Aug
north of the equator, Dec-Feb south of it); hemisphere by sign of latitude,
`lat >= 0` counting as north.  Written from the spec's words for C10. -/
def local_summer_months (lat : ℚ) : List ℕ :=
  if 0 ≤ lat then [6, 7, 8] else [12, 1, 2]

/-- The hemisphere's local winter months as the spec states them.  Written
from the spec's words for C10. -/
def local_winter_months (lat : ℚ) : List ℕ :=
  if 0 ≤ lat then [12, 1, 2] else [6, 7, 8]

/-- C10: the statistical model classifies `|latitude|` into exactly one of
six climate-zone bands with boundaries 10, 23.5, 35, 50, 66.5 (equatorial,
tropical, subtropical, temperate, subpolar, polar), each fixing a heat
baseline, a cold baseline and a precipitation multiplier; the hemisphere is
the sign of latitude, the heat seasonal factor exceeds 1 exactly in the
hemisphere's local summer, the cold seasonal factor exceeds 1 in its local
winter, and both factors are 1 in every other month. -/
theorem climate_zone_and_seasonal_factors (lat : ℚ) (month : ℕ) :
    (|lat| < 10 → climate_zone_params lat = ⟨"equatorial", 70, 5, 1.5⟩) ∧
    (10 ≤ |lat| → |lat| < 23.5 →
      climate_zone_params lat = ⟨"tropical", 60, 10, 1.3⟩) ∧
    (23.5 ≤ |lat| → |lat| < 35 →
      climate_zone_params lat = ⟨"subtropical", 50, 20, 1.0⟩) ∧
    (35 ≤ |lat| → |lat| < 50 →
      climate_zone_params lat = ⟨"temperate", 35, 30, 0.8⟩) ∧
    (50 ≤ |lat| → |lat| < 66.5 →
      climate_zone_params lat = ⟨"subpolar", 20, 50, 0.6⟩) ∧
    (66.5 ≤ |lat| → climate_zone_params lat = ⟨"polar", 10, 70, 0.4⟩) ∧
    (month ∈ local_summer_months lat → 1 < (seasonal_factors lat month).1) ∧
    (month ∈ local_winter_months lat → 1 < (seasonal_factors lat month).2) ∧
    (month ∉ local_summer_months lat → month ∉ local_winter_months lat →
      seasonal_factors lat month = (1, 1)) := by
  refine ⟨?_, ?_, ?_, ?_, ?_, ?_, ?_, ?_, ?_⟩
  · intro h1
    rw [climate_zone_params, if_pos h1]
  · intro h1 h2
    rw [climate_zone_params, if_neg (not_lt.mpr h1), if_pos h2]
  · intro h1 h2
    rw [climate_zone_params, if_neg (by linarith), if_neg (not_lt.mpr h1),
      if_pos h2]
  · intro h1 h2
    rw [climate_zone_params, if_neg (by linarith), if_neg (by linarith),
      if_neg (not_lt.mpr h1), if_pos h2]
  · intro h1 h2
    rw [climate_zone_params, if_neg (by linarith), if_neg (by linarith),
      if_neg (by linarith), if_neg (not_lt.mpr h1), if_pos h2]
  · intro h1
    rw [climate_zone_params, if_neg (by linarith), if_neg (by linarith),
      if_neg (by linarith), if_neg (by linarith), if_neg (not_lt.mpr h1)]
  · intro hm
    by_cases hl : 0 ≤ lat
    · rw [local_summer_months, if_pos hl] at hm
      rw [seasonal_factors, if_pos hl, if_pos hm]
      norm_num
    · rw [local_summer_months, if_neg hl] at hm
      rw [seasonal_factors, if_neg hl, if_pos hm]
      norm_num
  · intro hm
    by_cases hl : 0 ≤ lat
    · rw [local_winter_months, if_pos hl] at hm
      have hns : month ∉ ([6, 7, 8] : List ℕ) := by
        simp only [List.mem_cons, List.not_mem_nil, or_false] at hm ⊢
        omega
      rw [seasonal_factors, if_pos hl, if_neg hns, if_pos hm]
      norm_num
    · rw [local_winter_months, if_neg hl] at hm
      have hns : month ∉ ([12, 1, 2] : List ℕ) := by
        simp only [List.mem_cons, List.not_mem_nil, or_false] at hm ⊢
        omega
      rw [seasonal_factors, if_neg hl, if_neg hns, if_pos hm]
      norm_num
  · intro hs hw
    by_cases hl : 0 ≤ lat
    · rw [local_summer_months, if_pos hl] at hs
      rw [local_winter_months, if_pos hl] at hw
      rw [seasonal_factors, if_pos hl, if_neg hs, if_neg hw]
    · rw [local_summer_months, if_neg hl] at hs
      rw [local_winter_months, if_neg hl] at hw
      rw [seasonal_factors, if_neg hl, if_neg hs, if_neg hw]

theorem climate_zone_and_seasonal_factors_witness :
    ((35 : ℚ) ≤ |(40 : ℚ)| ∧ |(40 : ℚ)| < 50 ∧
      (7 : ℕ) ∈ local_summer_months 40 ∧ (1 : ℕ) ∈ local_winter_months 40) ∧
    climate_zone_params 40 = ⟨"temperate", 35, 30, 0.8⟩ ∧
    1 < (seasonal_factors 40 7).1 ∧
    1 < (seasonal_factors 40 1).2 := by
  have ha : |(40 : ℚ)| = 40 := abs_of_nonneg (by norm_num)
  have h7 := climate_zone_and_seasonal_factors 40 7
  have h1 := climate_zone_and_seasonal_factors 40 1
  have hm7 : (7 : ℕ) ∈ local_summer_months 40 := by
    rw [local_summer_months, if_pos (by norm_num : (0:ℚ) ≤ 40)]
    simp
  have hm1 : (1 : ℕ) ∈ local_winter_months 40 := by
    rw [local_winter_months, if_pos (by norm_num : (0:ℚ) ≤ 40)]
    simp
  exact ⟨⟨by rw [ha]; norm_num, by rw [ha]; norm_num, hm7, hm1⟩,
    h7.2.2.2.1 (by rw [ha]; norm_num) (by rw [ha]; norm_num),
    h7.2.2.2.2.2.2.1 hm7,
    h1.2.2.2.2.2.2.2.1 hm1⟩

end NimbusX
